import Mathlib

/-!
Verification of the axerrno error-classification layer: the `AxError` and
`LinuxError` enumerations, the forward conversion `From<AxError> for LinuxError`,
the reverse conversion `TryFrom<LinuxError> for AxError`, the `as_str`
description accessors, and the construct-with-log macro `ax_err!`.
-/

namespace Axerrno

/-- Modelled from the spec: the `LinuxError` enumeration is generated at build
time (include of OUT_DIR/linux_errno.rs) from a static table mirroring the
POSIX/Linux errno space, one variant per recognized Linux error code; the
generated file is not part of the source tree, so the standard Linux
asm-generic errno table (errno-base.h codes 1..34 and errno.h codes 35..133,
aliases excluded) is used as the variant list. -/
inductive LinuxError where
  | EPERM
  | ENOENT
  | ESRCH
  | EINTR
  | EIO
  | ENXIO
  | E2BIG
  | ENOEXEC
  | EBADF
  | ECHILD
  | EAGAIN
  | ENOMEM
  | EACCES
  | EFAULT
  | ENOTBLK
  | EBUSY
  | EEXIST
  | EXDEV
  | ENODEV
  | ENOTDIR
  | EISDIR
  | EINVAL
  | ENFILE
  | EMFILE
  | ENOTTY
  | ETXTBSY
  | EFBIG
  | ENOSPC
  | ESPIPE
  | EROFS
  | EMLINK
  | EPIPE
  | EDOM
  | ERANGE
  | EDEADLK
  | ENAMETOOLONG
  | ENOLCK
  | ENOSYS
  | ENOTEMPTY
  | ELOOP
  | ENOMSG
  | EIDRM
  | ECHRNG
  | EL2NSYNC
  | EL3HLT
  | EL3RST
  | ELNRNG
  | EUNATCH
  | ENOCSI
  | EL2HLT
  | EBADE
  | EBADR
  | EXFULL
  | ENOANO
  | EBADRQC
  | EBADSLT
  | EBFONT
  | ENOSTR
  | ENODATA
  | ETIME
  | ENOSR
  | ENONET
  | ENOPKG
  | EREMOTE
  | ENOLINK
  | EADV
  | ESRMNT
  | ECOMM
  | EPROTO
  | EMULTIHOP
  | EDOTDOT
  | EBADMSG
  | EOVERFLOW
  | ENOTUNIQ
  | EBADFD
  | EREMCHG
  | ELIBACC
  | ELIBBAD
  | ELIBSCN
  | ELIBMAX
  | ELIBEXEC
  | EILSEQ
  | ERESTART
  | ESTRPIPE
  | EUSERS
  | ENOTSOCK
  | EDESTADDRREQ
  | EMSGSIZE
  | EPROTOTYPE
  | ENOPROTOOPT
  | EPROTONOSUPPORT
  | ESOCKTNOSUPPORT
  | EOPNOTSUPP
  | EPFNOSUPPORT
  | EAFNOSUPPORT
  | EADDRINUSE
  | EADDRNOTAVAIL
  | ENETDOWN
  | ENETUNREACH
  | ENETRESET
  | ECONNABORTED
  | ECONNRESET
  | ENOBUFS
  | EISCONN
  | ENOTCONN
  | ESHUTDOWN
  | ETOOMANYREFS
  | ETIMEDOUT
  | ECONNREFUSED
  | EHOSTDOWN
  | EHOSTUNREACH
  | EALREADY
  | EINPROGRESS
  | ESTALE
  | EUCLEAN
  | ENOTNAM
  | ENAVAIL
  | EISNAM
  | EREMOTEIO
  | EDQUOT
  | ENOMEDIUM
  | EMEDIUMTYPE
  | ECANCELED
  | ENOKEY
  | EKEYEXPIRED
  | EKEYREVOKED
  | EKEYREJECTED
  | EOWNERDEAD
  | ENOTRECOVERABLE
  | ERFKILL
  | EHWPOISON
deriving DecidableEq, Repr

/-- Modelled from the spec: each `LinuxError` variant carries an associated
static human-readable description, taken from the build-time table that is
not part of the source tree; the description is represented here by the
rendering of the variant name (no claim depends on the description text,
only on the delegation structure of `AxError::as_str`). -/
def LinuxError.as_str (e : LinuxError) : String :=
  toString (repr e)

/-- Shallow embedding of the Rust type `Result<T, E>` as returned by
`TryFrom::try_from`: either `Ok` with a success value or `Err` with an
error payload. -/
inductive Result (α : Type) (ε : Type) where
  | ok (value : α)
  | err (e : ε)
deriving DecidableEq, Repr

/-- Returns `true` exactly when the result is `Ok`. -/
def Result.is_ok {α ε : Type} : Result α ε → Bool
  | .ok _ => true
  | .err _ => false

/-- The `AxError` enumeration of src/lib.rs: OS-independent semantic error
kinds, with `Other` wrapping a `LinuxError` for errno values that have no
dedicated kind. Variants in source declaration order. -/
inductive AxError where
  | AddressInUse
  | AlreadyExists
  | BadAddress
  | BadState
  | ConnectionRefused
  | ConnectionReset
  | DirectoryNotEmpty
  | InvalidData
  | InvalidInput
  | Io
  | IsADirectory
  | NoMemory
  | NotADirectory
  | NotConnected
  | NotFound
  | PermissionDenied
  | ResourceBusy
  | StorageFull
  | UnexpectedEof
  | Unsupported
  | WouldBlock
  | WriteZero
  | TooBig
  | CrossesDevices
  | BadIoctl
  | NameTooLong
  | BadFileDescriptor
  | FilesystemLoop
  | OperationNotSupported
  | InProgress
  | AlreadyConnected
  | Interrupted
  | TimedOut
  | NotASocket
  | BrokenPipe
  | TooManyOpenFiles
  | NoSuchProcess
  | IllegalBytes
  | OperationNotPermitted
  | OutOfRange
  | InvalidExecutable
  | NoSuchDevice
  | ReadOnlyFilesystem
  | Other (errno : LinuxError)
deriving DecidableEq, Repr

/-- `AxError::as_str` of src/lib.rs: the error description, with the
`Other(errno)` arm delegating to `errno.as_str()`. Arms in source order. -/
def AxError.as_str : AxError → String
  | .AddressInUse => "Address in use"
  | .BadAddress => "Bad address"
  | .BadState => "Bad internal state"
  | .AlreadyExists => "Entity already exists"
  | .ConnectionRefused => "Connection refused"
  | .ConnectionReset => "Connection reset"
  | .DirectoryNotEmpty => "Directory not empty"
  | .InvalidData => "Invalid data"
  | .InvalidInput => "Invalid input parameter"
  | .Io => "I/O error"
  | .IsADirectory => "Is a directory"
  | .NoMemory => "Out of memory"
  | .NotADirectory => "Not a directory"
  | .NotConnected => "Not connected"
  | .NotFound => "Entity not found"
  | .PermissionDenied => "Permission denied"
  | .ResourceBusy => "Resource busy"
  | .StorageFull => "No storage space"
  | .UnexpectedEof => "Unexpected end of file"
  | .Unsupported => "Operation not supported"
  | .WouldBlock => "Operation would block"
  | .WriteZero => "Write zero"
  | .TooBig => "Argument list too long"
  | .CrossesDevices => "Cross-device link or rename"
  | .BadIoctl => "Inappropriate ioctl for device"
  | .NameTooLong => "Filename too long"
  | .BadFileDescriptor => "Bad file descriptor"
  | .FilesystemLoop => "Filesystem loop or indirection limit"
  | .OperationNotSupported => "Operation not supported"
  | .InProgress => "Operation in progress"
  | .AlreadyConnected => "Already connected"
  | .Interrupted => "Operation interrupted"
  | .TimedOut => "Timed out"
  | .NotASocket => "Not a socket"
  | .BrokenPipe => "Broken pipe"
  | .TooManyOpenFiles => "Too many open files"
  | .NoSuchProcess => "No such process"
  | .IllegalBytes => "Illegal byte sequence"
  | .OperationNotPermitted => "Operation not permitted"
  | .OutOfRange => "Result out of range"
  | .InvalidExecutable => "Invalid executable format"
  | .NoSuchDevice => "No such device"
  | .ReadOnlyFilesystem => "Read-only filesystem"
  | .Other errno => errno.as_str

/-- Returns `true` exactly when the value is of the shape `Other(_)`. -/
def AxError.is_other : AxError → Bool
  | .Other _ => true
  | _ => false

/-- `impl From<AxError> for LinuxError` of src/lib.rs: the total forward
conversion. Arms in source order; or-patterns kept as in the source. -/
def LinuxError.fromAx : AxError → LinuxError
  | .AddressInUse => .EADDRINUSE
  | .AlreadyExists => .EEXIST
  | .BadAddress | .BadState => .EFAULT
  | .ConnectionRefused => .ECONNREFUSED
  | .ConnectionReset => .ECONNRESET
  | .DirectoryNotEmpty => .ENOTEMPTY
  | .InvalidInput | .InvalidData => .EINVAL
  | .Io => LinuxError.EIO
  | .IsADirectory => .EISDIR
  | .NoMemory => .ENOMEM
  | .NotADirectory => .ENOTDIR
  | .NotConnected => .ENOTCONN
  | .NotFound => .ENOENT
  | .PermissionDenied => .EACCES
  | .ResourceBusy => .EBUSY
  | .StorageFull => .ENOSPC
  | .Unsupported => .ENOSYS
  | .UnexpectedEof | .WriteZero => LinuxError.EIO
  | .WouldBlock => .EAGAIN
  | .TooBig => .E2BIG
  | .CrossesDevices => .EXDEV
  | .BadIoctl => .ENOTTY
  | .NameTooLong => .ENAMETOOLONG
  | .BadFileDescriptor => .EBADF
  | .FilesystemLoop => .ELOOP
  | .OperationNotSupported => .EOPNOTSUPP
  | .InProgress => .EINPROGRESS
  | .AlreadyConnected => .EISCONN
  | .Interrupted => .EINTR
  | .TimedOut => .ETIMEDOUT
  | .NotASocket => .ENOTSOCK
  | .BrokenPipe => .EPIPE
  | .TooManyOpenFiles => .EMFILE
  | .NoSuchProcess => .ESRCH
  | .IllegalBytes => .EILSEQ
  | .OperationNotPermitted => .EPERM
  | .OutOfRange => .ERANGE
  | .InvalidExecutable => .ENOEXEC
  | .NoSuchDevice => .ENODEV
  | .ReadOnlyFilesystem => .EROFS
  | .Other errno => errno

/-- `impl TryFrom<LinuxError> for AxError` of src/lib.rs: the partial reverse
conversion, `Ok` for the explicitly listed errno codes (arms in source order)
and `Err(e)` for every other errno via the wildcard arm. -/
def AxError.try_from : LinuxError → Result AxError LinuxError
  | .EADDRINUSE => .ok .AddressInUse
  | .EEXIST => .ok .AlreadyExists
  | .EFAULT => .ok .BadAddress
  | .ECONNREFUSED => .ok .ConnectionRefused
  | .ECONNRESET => .ok .ConnectionReset
  | .ENOTEMPTY => .ok .DirectoryNotEmpty
  | .EINVAL => .ok .InvalidInput
  | LinuxError.EIO => .ok .Io
  | .EISDIR => .ok .IsADirectory
  | .ENOMEM => .ok .NoMemory
  | .ENOTDIR => .ok .NotADirectory
  | .ENOTCONN => .ok .NotConnected
  | .ENOENT => .ok .NotFound
  | .EACCES => .ok .PermissionDenied
  | .EBUSY => .ok .ResourceBusy
  | .ENOSPC => .ok .StorageFull
  | .ENOSYS => .ok .Unsupported
  | .EAGAIN => .ok .WouldBlock
  | .E2BIG => .ok .TooBig
  | .EXDEV => .ok .CrossesDevices
  | .ENOTTY => .ok .BadIoctl
  | .ENAMETOOLONG => .ok .NameTooLong
  | .EBADF => .ok .BadFileDescriptor
  | .ELOOP => .ok .FilesystemLoop
  | .EOPNOTSUPP => .ok .OperationNotSupported
  | .EINPROGRESS => .ok .InProgress
  | .EISCONN => .ok .AlreadyConnected
  | .EINTR => .ok .Interrupted
  | .ETIMEDOUT => .ok .TimedOut
  | .ENOTSOCK => .ok .NotASocket
  | .EPIPE => .ok .BrokenPipe
  | .EMFILE => .ok .TooManyOpenFiles
  | .ESRCH => .ok .NoSuchProcess
  | .EILSEQ => .ok .IllegalBytes
  | .EPERM => .ok .OperationNotPermitted
  | .ERANGE => .ok .OutOfRange
  | .ENOEXEC => .ok .InvalidExecutable
  | .ENODEV => .ok .NoSuchDevice
  | .EROFS => .ok .ReadOnlyFilesystem
  | e => .err e

/-- Shallow embedding of the expansion of the `ax_err!` macro of src/lib.rs at
an `AxError` variant identifier: the block emits a warning line through the
external `log::warn` sink and then evaluates to the error value itself. The
external sink is modelled by a Boolean flag (active or absent/disabled) and
the emitted lines are returned as an explicit side channel. -/
def ax_err (log_active : Bool) (err : AxError) : AxError × List String :=
  (err, if log_active then ["[" ++ toString (repr err) ++ "]"] else [])

/-- Shared helper: whenever the reverse conversion succeeds, mapping the
produced value forward again gives back the input errno. -/
theorem try_from_ok_fromAx (e : LinuxError) (a : AxError)
    (h : AxError.try_from e = Result.ok a) : LinuxError.fromAx a = e := by
  cases e <;>
    first
      | exact Result.noConfusion h
      | (injection h with h2 ; subst h2 ; rfl)

/-- Shared helper: the reverse conversion never produces an `Other(_)` value. -/
theorem try_from_ok_not_other (e : LinuxError) (a : AxError)
    (h : AxError.try_from e = Result.ok a) : AxError.is_other a = false := by
  cases e <;>
    first
      | exact Result.noConfusion h
      | (injection h with h2 ; subst h2 ; rfl)

/-- Claim C1: for every `AxError` value `a`, the conversion
`LinuxError::from(a)` is defined (a value always exists) and deterministic
(equal inputs yield equal outputs). -/
theorem fromAx_total_deterministic :
    (∀ a : AxError, ∃ e : LinuxError, LinuxError.fromAx a = e) ∧
    ∀ a b : AxError, a = b → LinuxError.fromAx a = LinuxError.fromAx b :=
  ⟨fun a => ⟨LinuxError.fromAx a, rfl⟩, fun _ _ h => congrArg _ h⟩

/-- Witness for claim C1 at the concrete input `NoMemory`. -/
theorem fromAx_total_deterministic_witness :
    (∃ e : LinuxError, LinuxError.fromAx .NoMemory = e) ∧
    LinuxError.fromAx .NoMemory = LinuxError.fromAx .NoMemory :=
  ⟨fromAx_total_deterministic.1 .NoMemory,
   fromAx_total_deterministic.2 .NoMemory .NoMemory rfl⟩

/-- Claim C2: for every `AxError` value `a` that is not of the shape
`Other(_)`, the reverse conversion succeeds on `LinuxError::from(a)`. -/
theorem try_from_ok_on_forward_image (a : AxError)
    (h : AxError.is_other a = false) :
    ∃ b : AxError, AxError.try_from (LinuxError.fromAx a) = Result.ok b := by
  cases a <;> first
    | exact ⟨_, rfl⟩
    | simp [AxError.is_other] at h

/-- Witness for claim C2 at the concrete input `NotFound`. -/
theorem try_from_ok_on_forward_image_witness :
    AxError.is_other .NotFound = false ∧
    ∃ b : AxError, AxError.try_from (LinuxError.fromAx .NotFound) = Result.ok b :=
  ⟨rfl, try_from_ok_on_forward_image .NotFound rfl⟩

/-- Claim C3: whenever `AxError::try_from(e)` returns `Ok(a)`, converting
back gives `LinuxError::from(a) == e` (errno-level round trip). -/
theorem try_from_roundtrip (e : LinuxError) (a : AxError)
    (h : AxError.try_from e = Result.ok a) : LinuxError.fromAx a = e :=
  try_from_ok_fromAx e a h

/-- Witness for claim C3 at the concrete input `ENOENT`. -/
theorem try_from_roundtrip_witness :
    AxError.try_from .ENOENT = Result.ok .NotFound ∧
    LinuxError.fromAx .NotFound = LinuxError.ENOENT :=
  ⟨rfl, try_from_roundtrip .ENOENT .NotFound rfl⟩

/-- Claim C4: the reverse conversion succeeds exactly on the errno codes that
are targets of the forward mapping at some non-`Other` value, and on every
input it returns either `Ok` of an `AxError` or `Err` of a `LinuxError`. -/
theorem try_from_domain_charact (e : LinuxError) :
    ((∃ a : AxError, AxError.try_from e = Result.ok a) ↔
      (∃ a : AxError, AxError.is_other a = false ∧ LinuxError.fromAx a = e)) ∧
    ((∃ a : AxError, AxError.try_from e = Result.ok a) ∨
      (∃ e2 : LinuxError, AxError.try_from e = Result.err e2)) := by
  constructor
  · constructor
    · rintro ⟨a, h⟩
      exact ⟨a, try_from_ok_not_other e a h, try_from_ok_fromAx e a h⟩
    · rintro ⟨a, ha, he⟩
      subst he
      cases a <;> first
        | exact ⟨_, rfl⟩
        | simp [AxError.is_other] at ha
  · cases h : AxError.try_from e with
    | ok a => exact Or.inl ⟨a, rfl⟩
    | err e2 => exact Or.inr ⟨e2, rfl⟩

/-- Claim C5: whenever the reverse conversion fails, the failure payload is
exactly the input errno. -/
theorem try_from_err_preserves (e e2 : LinuxError)
    (h : AxError.try_from e = Result.err e2) : e2 = e := by
  cases e <;>
    first
      | exact Result.noConfusion h
      | (injection h with h2 ; exact h2.symm)

/-- Witness for claim C5 at the concrete unmapped input `EDEADLK`. -/
theorem try_from_err_preserves_witness :
    AxError.try_from .EDEADLK = Result.err .EDEADLK ∧
    LinuxError.EDEADLK = LinuxError.EDEADLK :=
  ⟨rfl, try_from_err_preserves .EDEADLK .EDEADLK rfl⟩

/-- Claim C6: the forward conversion unwraps the escape variant unchanged:
`LinuxError::from(AxError::Other(e)) == e`. -/
theorem fromAx_other_unwrap (e : LinuxError) :
    LinuxError.fromAx (AxError.Other e) = e := rfl

/-- Claim C7: the description accessor of the wrapping variant delegates to
the wrapped value: `AxError::Other(e).as_str() == e.as_str()`. -/
theorem other_as_str_delegates (e : LinuxError) :
    AxError.as_str (AxError.Other e) = LinuxError.as_str e := rfl

/-- Claim C8: both `BadAddress` and `BadState` map forward to `EFAULT`, and
the reverse conversion resolves the collision to the canonical `BadAddress`. -/
theorem efault_collision_canonical :
    LinuxError.fromAx .BadAddress = .EFAULT ∧
    LinuxError.fromAx .BadState = .EFAULT ∧
    AxError.try_from .EFAULT = Result.ok .BadAddress :=
  ⟨rfl, rfl, rfl⟩

/-- Claim C9: the construct-with-log macro applied to `NoMemory` evaluates to
`AxError::NoMemory` whether or not the logging sink is active, and the
produced value does not depend on the logging state. -/
theorem ax_err_value_independent (b : Bool) :
    (ax_err b AxError.NoMemory).1 = AxError.NoMemory ∧
    (ax_err b AxError.NoMemory).1 = (ax_err (!b) AxError.NoMemory).1 :=
  ⟨rfl, rfl⟩

/-- Claim C10: a successful reverse conversion never yields the escape
variant `Other(_)`. -/
theorem try_from_ok_never_other (e : LinuxError) (a : AxError)
    (h : AxError.try_from e = Result.ok a) : AxError.is_other a = false :=
  try_from_ok_not_other e a h

/-- Witness for claim C10 at the concrete input `ENOMEM`. -/
theorem try_from_ok_never_other_witness :
    AxError.try_from .ENOMEM = Result.ok .NoMemory ∧
    AxError.is_other .NoMemory = false :=
  ⟨rfl, try_from_ok_never_other .ENOMEM .NoMemory rfl⟩

end Axerrno
